import Mathlib

/-!
# Verification of the serverless-statistics metric engine

Shallow embedding of the repository's statistics engine
(`internal/utils/utils.go`), invocation cache (`internal/cache/cache.go`),
logs-insights polling engine (`internal/logsinsights`), and the metric
orchestrators (`internal/metrics/*.go`), together with proofs about the
claims of the specification.

`float64` values are modelled as exact rationals (`ℚ`).  Where the Go code
can produce a non-finite float (division by zero yielding NaN or ±Inf) the
result is modelled as `Option ℚ`, `none` standing for the non-finite values.
`math.Sqrt` is replaced by a rational stand-in (`goSqrt`); no claim in this
development depends on its value.
-/

namespace LambdaAnalyzer

/-- Division of two `float64` values as Go performs it: a zero divisor yields
a non-finite float (NaN or ±Inf), modelled as `none`. -/
def floatDiv (a b : ℚ) : Option ℚ :=
  if b = 0 then none else some (a / b)

/-- Rational stand-in for `math.Sqrt` (float square roots are not exactly
representable; no claim in this development depends on this value). -/
def goSqrt (x : ℚ) : ℚ :=
  (Nat.sqrt x.num.toNat : ℚ) / (Nat.sqrt x.den : ℚ)

/-- Go `int(f)` conversion of a `float64`: truncation toward zero. -/
def float64ToInt (x : ℚ) : Int :=
  if 0 ≤ x then ⌊x⌋ else ⌈x⌉

/-! ## Statistics engine (`internal/utils/utils.go`) -/

/-- `summaryStatistics` from `utils.go`: `P99`, `P95` and `ConfInt95` are
pointers in Go (`nil` when the sample is too small), modelled as `Option`;
`Mean`, `Median`, `Min` and `Max` are plain `float64` fields, hence always
present. -/
structure summaryStatistics where
  Mean : ℚ
  Median : ℚ
  P99 : Option ℚ
  P95 : Option ℚ
  ConfInt95 : Option ℚ
  Min : ℚ
  Max : ℚ
deriving DecidableEq, Repr

/-- `mean` from `utils.go`. -/
def mean (vals : List ℚ) : ℚ :=
  if vals.length = 0 then 0 else vals.sum / (vals.length : ℚ)

/-- `stdDev` from `utils.go`: population standard deviation (divides by `n`). -/
def stdDev (vals : List ℚ) : ℚ :=
  if vals.length ≤ 1 then 0
  else
    let m := mean vals
    let sumSquares := (vals.map (fun v => (v - m) * (v - m))).sum
    goSqrt (sumSquares / (vals.length : ℚ))

/-- `quantile` from `utils.go`: `index := int(math.Ceil(p*n)) - 1`, clamped
into bounds, then read from the sorted slice. -/
def quantile (p : ℚ) (sorted : List ℚ) : ℚ :=
  if sorted.length = 0 then 0
  else
    let index : Int := ⌈p * (sorted.length : ℚ)⌉ - 1
    let index : Int := if index < 0 then 0 else index
    let index : Int := if index ≥ (sorted.length : Int) then (sorted.length : Int) - 1 else index
    sorted.getD index.toNat 0

/-- `slices.Min` restricted to the non-empty samples it is called on. -/
def slicesMin : List ℚ → ℚ
  | [] => 0
  | x :: xs => xs.foldl min x

/-- `slices.Max` restricted to the non-empty samples it is called on. -/
def slicesMax : List ℚ → ℚ
  | [] => 0
  | x :: xs => xs.foldl max x

/-- `CalcSummaryStats` from `utils.go`: errors on an empty sample, sorts a
copy for the order statistics, and gates `P95`/`P99`/`ConfInt95` behind the
sample-size thresholds 20, 100 and 30. -/
def CalcSummaryStats (vals : List ℚ) : Except String summaryStatistics :=
  if vals.length = 0 then .error "empty slice"
  else
    let sorted := vals.mergeSort (· ≤ ·)
    let meanVal := mean vals
    let medianVal := quantile (1/2) sorted
    let stddevVal := stdDev vals
    let minV := slicesMin vals
    let maxV := slicesMax vals
    let p95 : Option ℚ := if 20 ≤ vals.length then some (quantile (95/100) sorted) else none
    let p99 : Option ℚ := if 100 ≤ vals.length then some (quantile (99/100) sorted) else none
    let confInt95 : Option ℚ :=
      if 30 ≤ vals.length then some ((196/100) * stddevVal / goSqrt (vals.length : ℚ)) else none
    .ok { Mean := meanVal, Median := medianVal, P99 := p99, P95 := p95,
          ConfInt95 := confInt95, Min := minV, Max := maxV }

/-! ## Time and query identities -/

/-- A Go `time.Time` instant: absolute seconds plus a sub-second nanosecond
part (`0 ≤ nsec < 10^9`, not needed by any claim).  `Unix()` returns the
whole-second part. -/
structure GoTime where
  sec : Int
  nsec : Nat
deriving DecidableEq, Repr

/-- `time.Time.Unix()`: the instant truncated to whole Unix seconds. -/
def GoTime.Unix (t : GoTime) : Int := t.sec

/-- `sdktypes.FunctionQuery` from `types/types.go`. -/
structure FunctionQuery where
  FunctionName : String
  Region : String
  Qualifier : String
  StartTime : GoTime
  EndTime : GoTime
deriving DecidableEq, Repr

/-! ## Invocation cache (`internal/cache/cache.go`) -/

/-- `cache.CacheKey`. -/
structure CacheKey where
  FunctionName : String
  Qualifier : String
  Start : GoTime
  End : GoTime
deriving DecidableEq, Repr

/-- `CacheKey.String()`: `fmt.Sprintf("%s|%s|%d|%d", name, qualifier,
start.Unix(), end.Unix())`. -/
def CacheKey.String (k : CacheKey) : String :=
  k.FunctionName ++ "|" ++ k.Qualifier ++ "|" ++ toString k.Start.Unix ++ "|" ++ toString k.End.Unix

/-- The key every orchestrator builds from its `FunctionQuery`
(e.g. `errorrate.go`). -/
def cacheKeyOfQuery (q : FunctionQuery) : CacheKey :=
  { FunctionName := q.FunctionName, Qualifier := q.Qualifier,
    Start := q.StartTime, End := q.EndTime }

/-- The state of `cache.Cache`: the underlying `map[string]int`, modelled as
an association list in which the most recent write for a key string comes
first (`List.lookup` finds it). -/
abbrev CacheStore := List (String × Int)

/-- `NewCache()`: the empty map. -/
def NewCache : CacheStore := []

/-- `Cache.Has`. -/
def Cache.Has (c : CacheStore) (key : CacheKey) : Bool :=
  (List.lookup key.String c).isSome

/-- `Cache.Set`: `store[key.String()] = count`. -/
def Cache.Set (c : CacheStore) (key : CacheKey) (count : Int) : CacheStore :=
  (key.String, count) :: c

/-- `Cache.Get`: the count and the map-lookup `ok` flag (zero value `0` when
absent). -/
def Cache.Get (c : CacheStore) (key : CacheKey) : Int × Bool :=
  match List.lookup key.String c with
  | some v => (v, true)
  | none => (0, false)

/-- A mutation of a cache instance (its only mutating method is `Set`). -/
inductive CacheOp where
  | set (key : CacheKey) (count : Int)
deriving DecidableEq, Repr

/-- The key a cache operation addresses. -/
def CacheOp.key : CacheOp → CacheKey
  | .set k _ => k

/-- Apply one operation to a cache state. -/
def runOp (c : CacheStore) : CacheOp → CacheStore
  | .set k v => Cache.Set c k v

/-- The state of a cache instance after a sequence of operations has been
executed on a fresh `NewCache`. -/
def runOps (ops : List CacheOp) : CacheStore :=
  ops.foldl runOp NewCache

/-! ## String parsing (`strconv`) -/

/-- A non-empty all-digit character run, as a number. -/
def parseNatDigits (cs : List Char) : Option Nat :=
  if cs = [] then none
  else if cs.all Char.isDigit then
    some (cs.foldl (fun a c => 10 * a + (c.toNat - 48)) 0)
  else none

/-- `strconv.Atoi` / `strconv.ParseInt(s, 10, 0)`: optional sign followed by
decimal digits.  Platform-int overflow is not modelled (no claim involves a
count near 2^63). -/
def parseInt (s : String) : Option Int :=
  match s.data with
  | '+' :: rest => (parseNatDigits rest).map Int.ofNat
  | '-' :: rest => (parseNatDigits rest).map (fun n => -(n : Int))
  | rest => (parseNatDigits rest).map Int.ofNat

/-- An all-digit (possibly empty) character run, as a number. -/
def digitsValue? (cs : List Char) : Option Nat :=
  if cs.all Char.isDigit then
    some (cs.foldl (fun a c => 10 * a + (c.toNat - 48)) 0)
  else none

/-- Split a character run at its first `'.'`, when one is present. -/
def splitFirstDot : List Char → List Char × Option (List Char)
  | [] => ([], none)
  | c :: rest =>
    if c = '.' then ([], some rest)
    else
      let r := splitFirstDot rest
      (c :: r.1, r.2)

/-- `strconv.ParseFloat` on the plain decimal forms the log queries produce
(optional sign, digits, optional fractional part).  Exponent, hex and
inf/NaN spellings of Go's float syntax are not modelled; no claim uses
them. -/
def parseFloat (s : String) : Option ℚ :=
  let signed : ℚ × List Char :=
    match s.data with
    | '-' :: rest => (-1, rest)
    | '+' :: rest => (1, rest)
    | rest => (1, rest)
  let parts := splitFirstDot signed.2
  match parts.2 with
  | none => (parseNatDigits parts.1).map (fun n => signed.1 * (n : ℚ))
  | some frac =>
    if parts.1 = [] ∧ frac = [] then none
    else
      match digitsValue? parts.1, digitsValue? frac with
      | some na, some nb =>
        some (signed.1 * ((na : ℚ) + (nb : ℚ) / ((10 : ℚ) ^ frac.length)))
      | _, _ => none

/-! ## Errors and results -/

/-- The errors an orchestrator can return.  `noInvocations` is the typed
`*sdkerrors.NoInvocationsError` (recognizable via `errors.As`); every other
error the orchestrators produce is an untyped `fmt.Errorf` value, carried
here as `goErr` with its message. -/
inductive SdkError where
  | noInvocations (functionName : String)
  | goErr (msg : String)
deriving DecidableEq, Repr

/-- Outcome of running a Go function that returns `(T, error)`: a value, an
error, or a runtime panic (which in Go is neither of the two returns). -/
inductive GoResult (α : Type) where
  | ok (val : α)
  | fail (e : SdkError)
  | panicked (msg : String)
deriving DecidableEq, Repr

/-- One parsed logs-insights result row: field name → value.  Looking up an
absent field gives the Go map zero value `""`. -/
abbrev Row := List (String × String)

/-- Go `row[field]` (zero value `""` for a missing field). -/
def Row.get (r : Row) (field : String) : String :=
  (List.lookup field r).getD ""

/-- Go `v, ok := row[field]`. -/
def Row.get? (r : Row) (field : String) : Option String :=
  List.lookup field r

/-- One CloudWatch `MetricDataResult` (only its `Values` matter here). -/
structure MetricDataResult where
  Values : List ℚ
deriving DecidableEq, Repr

/-- `utils.SumMetricValues`: sums all values of all results (its Go error
return is always `nil`). -/
def SumMetricValues (results : List MetricDataResult) : Except String ℚ :=
  .ok ((results.map (fun r => r.Values.sum)).sum)

/-- The two collaborators of an orchestrator call, abstracted at their
boundary: the CloudWatch metrics fetch (keyed by metric name and statistic)
and the logs-insights query engine (keyed by the query string). -/
structure Env where
  fetchMetric : String → String → Except String (List MetricDataResult)
  runQuery : String → Except String (List Row)

/-! ## Query templates and qualifier escaping -/

/-- `fmt.Sprintf` on a template with exactly one `%s` substitution site. -/
def sprintf1 (template arg : String) : String :=
  template.replace "%s" arg

/-- `strings.ReplaceAll(qualifier, "$", "\\$")` as done before every
templated query. -/
def escapeQualifier (q : String) : String :=
  q.replace "$" "\\$"

/-- `queries.LambdaUniqueRequestsWithVersion`. -/
def LambdaUniqueRequestsWithVersion : String :=
  "\nfilter @logStream like /\\[%s\\]/\n| stats count_distinct(@requestId) as invocationsCount\n"

/-- `queries.LambdaTimeoutQueryWithVersion`. -/
def LambdaTimeoutQueryWithVersion : String :=
  "\nfilter @message like /Status: timeout/ and @logStream like /\\[%s\\]/\n| stats count_distinct(@requestId) as timeoutCount\n"

/-- `queries.LambdaColdStartRateWithVersion`. -/
def LambdaColdStartRateWithVersion : String :=
  "\nfilter @type = \"REPORT\" and @logStream like /\\[%s\\]/\n| parse @message /REPORT RequestId: (?<requestId>[a-f0-9-]+)/\n| stats\n    count_distinct(requestId) as totalInvocations,\n    sum(strcontains(@message, \"Init Duration\")) as coldStartLines\n"

/-- `queries.LambdaBilledDurationQueryWithVersion`. -/
def LambdaBilledDurationQueryWithVersion : String :=
  "\nstats sum(@duration) as totalDuration, sum(@billedDuration) as totalBilledDuration\n| filter @logStream like /\\[%s\\]/\n"

/-- `queries.LambdaErrorTypesQueryWithVersion`. -/
def LambdaErrorTypesQueryWithVersion : String :=
  "\nfilter @message =~ /(?i)\\[ERROR\\]/ and @logStream like /\\[%s\\]/\n| parse @message /\\[ERROR\\]\\s+(?<error_type>[^ :]+)[ :]*(?<error_details>.*)?/\n| parse error_details /(?<specific_error>.*?)\\s*when calling/\n| parse error_details /An error occurred \\((?<aws_error_code>\\w+)\\)/\n| stats\n    count() as error_count\n    by coalesce(aws_error_code, specific_error, error_type, \"UnknownError\") as error_category\n| sort error_count desc"

/-! ## Return shapes (`types/types.go`)

Rate fields are Go `float64` results of divisions and are therefore
modelled as `Option ℚ` (`none` = non-finite). -/

/-- `sdktypes.ThrottleRateReturn`. -/
structure ThrottleRateReturn where
  ThrottleRate : Option ℚ
  FunctionName : String
  Qualifier : String
  StartTime : GoTime
  EndTime : GoTime
deriving DecidableEq, Repr

/-- `sdktypes.TimeoutRateReturn`. -/
structure TimeoutRateReturn where
  TimeoutRate : Option ℚ
  FunctionName : String
  Qualifier : String
  StartTime : GoTime
  EndTime : GoTime
deriving DecidableEq, Repr

/-- `sdktypes.ErrorRateReturn`. -/
structure ErrorRateReturn where
  FunctionName : String
  Qualifier : String
  StartTime : GoTime
  EndTime : GoTime
  ErrorRate : Option ℚ
deriving DecidableEq, Repr

/-- `sdktypes.ColdStartRateReturn`. -/
structure ColdStartRateReturn where
  ColdStartRate : Option ℚ
  FunctionName : String
  Qualifier : String
  StartTime : GoTime
  EndTime : GoTime
deriving DecidableEq, Repr

/-- `sdktypes.WasteRatioReturn`. -/
structure WasteRatioReturn where
  WasteRatio : Option ℚ
  FunctionName : String
  Qualifier : String
  StartTime : GoTime
  EndTime : GoTime
deriving DecidableEq, Repr

/-- `sdktypes.ErrorType`. -/
structure ErrorType where
  ErrorCategory : String
  ErrorCount : Int
deriving DecidableEq, Repr

/-- `sdktypes.ErrorTypesReturn`. -/
structure ErrorTypesReturn where
  Errors : List ErrorType
  FunctionName : String
  Qualifier : String
  StartTime : GoTime
  EndTime : GoTime
deriving DecidableEq, Repr

/-! ## Metric orchestrators (`internal/metrics`) -/

/-- The denominator-resolution step shared by `GetErrorRate` and
`GetTimeoutRate` (`errorrate.go` lines 40-63): on a cache hit take the
cached invocation count, otherwise fetch the `Invocations`/`Sum` metric,
sum it, and write it to the cache before proceeding.  Returns the resolved
sum together with the cache state after the step. -/
def resolveInvocationsSum (env : Env) (c : CacheStore) (q : FunctionQuery) :
    GoResult ℚ × CacheStore :=
  let key := cacheKeyOfQuery q
  if Cache.Has c key then
    ((.ok ((Cache.Get c key).1 : ℚ)), c)
  else
    match env.fetchMetric "Invocations" "Sum" with
    | .error e => (.fail (.goErr ("fetch invocations metric: " ++ e)), c)
    | .ok invocationsResults =>
      match SumMetricValues invocationsResults with
      | .error e => (.fail (.goErr ("parse invocations metric data: " ++ e)), c)
      | .ok s => (.ok s, Cache.Set c key (float64ToInt s))

/-- `GetErrorRate` (`internal/metrics/errorrate.go`): resolve the
denominator through the cache, fail with the typed `NoInvocationsError`
when it is zero, then divide the `Errors`/`Sum` metric by it. -/
def GetErrorRate (env : Env) (c : CacheStore) (q : FunctionQuery) :
    GoResult ErrorRateReturn × CacheStore :=
  match resolveInvocationsSum env c q with
  | (.fail e, c1) => (.fail e, c1)
  | (.panicked m, c1) => (.panicked m, c1)
  | (.ok invocationsSum, c1) =>
    if invocationsSum = 0 then
      (.fail (.noInvocations q.FunctionName), c1)
    else
      match env.fetchMetric "Errors" "Sum" with
      | .error e => (.fail (.goErr ("fetch errors metric: " ++ e)), c1)
      | .ok errorsResults =>
        match SumMetricValues errorsResults with
        | .error e => (.fail (.goErr ("parse errors metric data: " ++ e)), c1)
        | .ok errorsSum =>
          (.ok { FunctionName := q.FunctionName, Qualifier := q.Qualifier,
                 StartTime := q.StartTime, EndTime := q.EndTime,
                 ErrorRate := floatDiv errorsSum invocationsSum }, c1)

/-- `GetThrottleRate` (`internal/metrics/throttlerate.go`): fetch the
`Invocations`/`Sum` metric directly (no cache), fail with
`NoInvocationsError` when it is zero, then divide the `Throttles`/`Sum`
metric by it. -/
def GetThrottleRate (env : Env) (q : FunctionQuery) : GoResult ThrottleRateReturn :=
  match env.fetchMetric "Invocations" "Sum" with
  | .error e => .fail (.goErr ("fetch invocations metric: " ++ e))
  | .ok invocationsResults =>
    match SumMetricValues invocationsResults with
    | .error e => .fail (.goErr ("parse invocations metric data: " ++ e))
    | .ok invocationsSum =>
      if invocationsSum = 0 then
        .fail (.noInvocations q.FunctionName)
      else
        match env.fetchMetric "Throttles" "Sum" with
        | .error e => .fail (.goErr ("fetch throttles metric: " ++ e))
        | .ok throttlesResults =>
          match SumMetricValues throttlesResults with
          | .error e => .fail (.goErr ("parse throttles metric data: " ++ e))
          | .ok throttlesSum =>
            .ok { ThrottleRate := floatDiv throttlesSum invocationsSum,
                  FunctionName := q.FunctionName, Qualifier := q.Qualifier,
                  StartTime := q.StartTime, EndTime := q.EndTime }

/-- Read one templated single-aggregate count out of logs-insights query
results, as `GetTimeoutRate` does twice: the count stays `0` when the
result set is empty or the field is blank, and parsing failures are
fatal. -/
def readAggregateCount (results : List Row) (field wrapMsg : String) : GoResult Int :=
  match results with
  | [] => .ok 0
  | row :: _ =>
    let val := Row.get row field
    if val = "" then .ok 0
    else
      match parseInt val with
      | none => .fail (.goErr (wrapMsg ++ ": invalid syntax"))
      | some n => .ok n

/-- `GetTimeoutRate` (`src/unnamed/part_021`): resolve the denominator
through the cache and guard it with `NoInvocationsError`, then run the
unique-requests query and the timeout query against logs insights and
divide the two log-derived counts. -/
def GetTimeoutRate (env : Env) (c : CacheStore) (q : FunctionQuery) :
    GoResult TimeoutRateReturn × CacheStore :=
  match resolveInvocationsSum env c q with
  | (.fail e, c1) => (.fail e, c1)
  | (.panicked m, c1) => (.panicked m, c1)
  | (.ok invocationsSum, c1) =>
    if invocationsSum = 0 then
      (.fail (.noInvocations q.FunctionName), c1)
    else
      let escapedQualifier := escapeQualifier q.Qualifier
      match env.runQuery (sprintf1 LambdaUniqueRequestsWithVersion escapedQualifier) with
      | .error e => (.fail (.goErr ("fetch errors from logs insights: " ++ e)), c1)
      | .ok results1 =>
        match readAggregateCount results1 "invocationsCount" "parse invocationsCount from logs" with
        | .fail e => (.fail e, c1)
        | .panicked m => (.panicked m, c1)
        | .ok invocationsCount =>
          match env.runQuery (sprintf1 LambdaTimeoutQueryWithVersion escapedQualifier) with
          | .error e => (.fail (.goErr ("run logs insights query: " ++ e)), c1)
          | .ok results2 =>
            match readAggregateCount results2 "timeoutCount" "parse timeoutCount from logs" with
            | .fail e => (.fail e, c1)
            | .panicked m => (.panicked m, c1)
            | .ok timeoutCount =>
              (.ok { TimeoutRate := floatDiv (timeoutCount : ℚ) (invocationsCount : ℚ),
                     FunctionName := q.FunctionName, Qualifier := q.Qualifier,
                     StartTime := q.StartTime, EndTime := q.EndTime }, c1)

/-- `GetWasteRatio` (`internal/metrics/wasteratio.go`): guard on the metric
invocation sum, run the billed-duration aggregate query, parse the two
totals (blank fields leave them `0`), fail distinctly when the actual
duration total is zero, otherwise return
`(billed − actual) / billed`. -/
def GetWasteRatio (env : Env) (q : FunctionQuery) : GoResult WasteRatioReturn :=
  match env.fetchMetric "Invocations" "Sum" with
  | .error e => .fail (.goErr ("fetch invocations metric: " ++ e))
  | .ok invocationsResults =>
    match SumMetricValues invocationsResults with
    | .error e => .fail (.goErr ("parse invocations metric data: " ++ e))
    | .ok invocationsSum =>
      if invocationsSum = 0 then
        .fail (.noInvocations q.FunctionName)
      else
        let escapedQualifier := escapeQualifier q.Qualifier
        match env.runQuery (sprintf1 LambdaBilledDurationQueryWithVersion escapedQualifier) with
        | .error e => .fail (.goErr ("fetch errors from logs insights: " ++ e))
        | .ok results =>
          let totals : GoResult (ℚ × ℚ) :=
            match results with
            | [] => .ok (0, 0)
            | row :: _ =>
              let durVal := Row.get row "totalDuration"
              let step1 : GoResult ℚ :=
                if durVal = "" then .ok 0
                else
                  match parseFloat durVal with
                  | none => .fail (.goErr "parse totalDurationMs from logs: invalid syntax")
                  | some d => .ok d
              match step1 with
              | .fail e => .fail e
              | .panicked m => .panicked m
              | .ok totalDurationMs =>
                let billedVal := Row.get row "totalBilledDuration"
                if billedVal = "" then .ok (totalDurationMs, 0)
                else
                  match parseFloat billedVal with
                  | none => .fail (.goErr "parse totalBilledDurationMs from logs: invalid syntax")
                  | some b => .ok (totalDurationMs, b)
          match totals with
          | .fail e => .fail e
          | .panicked m => .panicked m
          | .ok (totalDurationMs, totalBilledDurationMs) =>
            if totalDurationMs = 0 then
              .fail (.goErr "total duration is zero, cannot calculate waste ratio")
            else
              .ok { WasteRatio := floatDiv (totalBilledDurationMs - totalDurationMs) totalBilledDurationMs,
                    FunctionName := q.FunctionName, Qualifier := q.Qualifier,
                    StartTime := q.StartTime, EndTime := q.EndTime }

/-- `GetColdStartRate` (`internal/metrics/coldstartrate.go`): guard on the
metric invocation sum, run the cold-start aggregate query, then read the
first result row — the Go code indexes `results[0]` without a length
check, so an empty result set is a runtime panic.  With both fields
non-blank the rate is `cold / total` (a zero total or a parse failure is a
fatal error); a blank field leaves the rate at its zero value `0`. -/
def GetColdStartRate (env : Env) (q : FunctionQuery) : GoResult ColdStartRateReturn :=
  match env.fetchMetric "Invocations" "Sum" with
  | .error e => .fail (.goErr ("fetch invocations metric: " ++ e))
  | .ok invocationsResults =>
    match SumMetricValues invocationsResults with
    | .error e => .fail (.goErr ("parse invocations metric data: " ++ e))
    | .ok invocationsSum =>
      if invocationsSum = 0 then
        .fail (.noInvocations q.FunctionName)
      else
        let escapedQualifier := escapeQualifier q.Qualifier
        match env.runQuery (sprintf1 LambdaColdStartRateWithVersion escapedQualifier) with
        | .error e => .fail (.goErr ("run logs insights query: " ++ e))
        | .ok results =>
          match results with
          | [] => .panicked "runtime error: index out of range [0] with length 0"
          | row :: _ =>
            let totalStr := Row.get row "totalInvocations"
            let coldStr := Row.get row "coldStartLines"
            if totalStr ≠ "" ∧ coldStr ≠ "" then
              match parseFloat totalStr, parseFloat coldStr with
              | some total, some cold =>
                if total = 0 then
                  .fail (.goErr ("invalid data from logs: total=" ++ totalStr ++ ", cold=" ++ coldStr))
                else
                  .ok { ColdStartRate := floatDiv cold total,
                        FunctionName := q.FunctionName, Qualifier := q.Qualifier,
                        StartTime := q.StartTime, EndTime := q.EndTime }
              | _, _ =>
                .fail (.goErr ("invalid data from logs: total=" ++ totalStr ++ ", cold=" ++ coldStr))
            else
              .ok { ColdStartRate := some 0,
                    FunctionName := q.FunctionName, Qualifier := q.Qualifier,
                    StartTime := q.StartTime, EndTime := q.EndTime }

/-- The row loop of `GetErrorTypes` (`wasteratio.go` lines 148-167): a blank
or missing `error_category` is normalized to `"UnknownError"`; a missing
`error_count` field, or one that does not parse as an integer, skips the
row (warning only); every surviving row contributes one entry in order. -/
def errorTypesOfRows : List Row → List ErrorType
  | [] => []
  | row :: rest =>
    let category :=
      match Row.get? row "error_category" with
      | none => "UnknownError"
      | some c => if c = "" then "UnknownError" else c
    match Row.get? row "error_count" with
    | none => errorTypesOfRows rest
    | some countStr =>
      match parseInt countStr with
      | none => errorTypesOfRows rest
      | some count =>
        { ErrorCategory := category, ErrorCount := count } :: errorTypesOfRows rest

/-- `GetErrorTypes` (`wasteratio.go`): guard on the metric invocation sum,
run the error-categorization query, and fold the rows with
`errorTypesOfRows`. -/
def GetErrorTypes (env : Env) (q : FunctionQuery) : GoResult ErrorTypesReturn :=
  match env.fetchMetric "Invocations" "Sum" with
  | .error e => .fail (.goErr ("fetch invocations metric: " ++ e))
  | .ok invocationsResults =>
    match SumMetricValues invocationsResults with
    | .error e => .fail (.goErr ("parse invocations metric data: " ++ e))
    | .ok invocationsSum =>
      if invocationsSum = 0 then
        .fail (.noInvocations q.FunctionName)
      else
        let escapedQualifier := escapeQualifier q.Qualifier
        match env.runQuery (sprintf1 LambdaErrorTypesQueryWithVersion escapedQualifier) with
        | .error e => .fail (.goErr ("run logs insights query: " ++ e))
        | .ok results =>
          .ok { Errors := errorTypesOfRows results,
                FunctionName := q.FunctionName, Qualifier := q.Qualifier,
                StartTime := q.StartTime, EndTime := q.EndTime }

/-! ## Query submission & polling engine (`internal/logsinsights`, `src/unnamed/part_023`) -/

/-- Status of a logs-insights query job.  `Complete`, `Failed` and
`Cancelled` are terminal; everything else (`Scheduled`, `Running`) keeps
the poll loop going. -/
inductive QueryStatus where
  | Scheduled
  | Running
  | Complete
  | Failed
  | Cancelled
deriving DecidableEq, Repr

/-- The `%s` rendering of a `QueryStatus` value. -/
def QueryStatus.render : QueryStatus → String
  | .Scheduled => "Scheduled"
  | .Running => "Running"
  | .Complete => "Complete"
  | .Failed => "Failed"
  | .Cancelled => "Cancelled"

/-- One raw result row as the backend returns it: a list of
(field, value) pairs. -/
abbrev RawRow := List (String × String)

/-- Build the `map[string]string` for one row: later fields with the same
name overwrite earlier ones. -/
def rowOfRaw (raw : RawRow) : Row :=
  raw.foldl
    (fun (m : Row) kv =>
      if (List.lookup kv.1 m).isSome then
        m.map (fun p => if p.1 = kv.1 then (kv.1, kv.2) else p)
      else m ++ [kv])
    []

/-- The log backend as `RunQuery` observes it: the submission response
(transport error, or an optional query id), and the response to the `i`-th
`GetQueryResults` poll (transport error, or a status with raw rows). -/
structure LogsBackend where
  startResp : Except String (Option String)
  getResults : Nat → Except String (QueryStatus × List RawRow)

/-- One iteration of the poll loop of `RunQuery` after its 500 ms sleep:
fetch the job status and decide.  `some r` ends the loop with `r` (a
transport error, the parsed rows on `Complete`, or the failure naming a
`Failed`/`Cancelled` status); `none` means a non-terminal status, so the
loop continues. -/
def pollOnce (backend : LogsBackend) (i : Nat) : Option (GoResult (List Row)) :=
  match backend.getResults i with
  | .error e => some (.fail (.goErr e))
  | .ok (status, rawRows) =>
    if status = .Complete then some (.ok (rawRows.map rowOfRaw))
    else if status = .Failed ∨ status = .Cancelled then
      some (.fail (.goErr ("query failed with status: " ++ status.render)))
    else none

/-- The poll loop of `RunQuery`: every iteration processes its response via
`pollOnce`; on a non-terminal status the loop continues until the
10-second context deadline (checked after each response) aborts it.  `i` is
the poll index and `fuel` the number of further polls the deadline still
allows. -/
def pollLoop (backend : LogsBackend) : Nat → Nat → GoResult (List Row)
  | i, 0 =>
    match pollOnce backend i with
    | some r => r
    | none => .fail (.goErr "query polling timed out")
  | i, fuel + 1 =>
    match pollOnce backend i with
    | some r => r
    | none => pollLoop backend (i + 1) fuel

/-- The number of extra polls the 10-second deadline leaves after the first
one (500 ms sleep per iteration). -/
def maxExtraPolls : Nat := 19

/-- `RunQuery` (`src/unnamed/part_023`): submit, fail on a transport error
or a missing query id, then poll to a terminal state under the
deadline. -/
def RunQuery (backend : LogsBackend) : GoResult (List Row) :=
  match backend.startResp with
  | .error e => .fail (.goErr e)
  | .ok none => .fail (.goErr "no query ID returned")
  | .ok (some _) => pollLoop backend 0 maxExtraPolls

/-! ## Row-level specification of the error-categorization loop -/

/-- Per-row summary of the Go loop in `GetErrorTypes`: a row is kept exactly
when its `error_count` field is present and parses as an integer, and the
kept entry carries the normalized category (`"UnknownError"` for a blank or
missing one). -/
def rowEntry (row : Row) : Option ErrorType :=
  match Row.get? row "error_count" with
  | none => none
  | some countStr =>
    match parseInt countStr with
    | none => none
    | some count =>
      some { ErrorCategory :=
               match Row.get? row "error_category" with
               | none => "UnknownError"
               | some c => if c = "" then "UnknownError" else c,
             ErrorCount := count }

/-! ## Concrete instances used by witnesses and counterexamples -/

/-- A sample of `n` zeros. -/
def sampleOfSize (n : Nat) : List ℚ := List.replicate n 0

/-- A concrete function query. -/
def qDemo : FunctionQuery :=
  { FunctionName := "my-fn", Region := "eu-central-1", Qualifier := "7",
    StartTime := { sec := 1700000000, nsec := 0 }, EndTime := { sec := 1700003600, nsec := 0 } }

/-- `qDemo` with a different region and with start and end instants that
differ from `qDemo`'s only below the second. -/
def qDemoSubSecond : FunctionQuery :=
  { FunctionName := "my-fn", Region := "us-east-1", Qualifier := "7",
    StartTime := { sec := 1700000000, nsec := 999999999 },
    EndTime := { sec := 1700003600, nsec := 1 } }

/-- Environment in which every metric sums to `0`. -/
def envAllZero : Env :=
  { fetchMetric := fun _ _ => .ok [{ Values := [0] }],
    runQuery := fun _ => .ok [] }

/-- Environment in which every metric sums to `5` and every log query
returns an empty row sequence. -/
def envFiveNoLogs : Env :=
  { fetchMetric := fun _ _ => .ok [{ Values := [5] }],
    runQuery := fun _ => .ok [] }

/-- Environment for the waste-ratio scenario: invocations present, one
aggregate row with billed total `110` and actual total `100`. -/
def envWasteDemo : Env :=
  { fetchMetric := fun _ _ => .ok [{ Values := [42] }],
    runQuery := fun _ => .ok [[("totalDuration", "100"), ("totalBilledDuration", "110")]] }

/-- Environment for the cold-start blank-field scenario: invocations
present, one aggregate row whose `totalInvocations` field is blank. -/
def envColdBlank : Env :=
  { fetchMetric := fun _ _ => .ok [{ Values := [100] }],
    runQuery := fun _ => .ok [[("totalInvocations", ""), ("coldStartLines", "10")]] }

/-- A cache instance already holding invocation count `0` for `qDemo`'s
key: the denominator then resolves to `0` from a cache hit, whatever the
metrics backend would answer. -/
def cacheWithZero : CacheStore :=
  Cache.Set NewCache (cacheKeyOfQuery qDemo) 0

/-- A cache key. -/
def aliasKeyA : CacheKey :=
  { FunctionName := "my-fn", Qualifier := "7",
    Start := { sec := 1700000000, nsec := 0 }, End := { sec := 1700003600, nsec := 0 } }

/-- A cache key distinct from `aliasKeyA` as a value (its start instant
differs by half a second) but with the same derived key string, since
`CacheKey.String` truncates to whole Unix seconds. -/
def aliasKeyB : CacheKey :=
  { FunctionName := "my-fn", Qualifier := "7",
    Start := { sec := 1700000000, nsec := 500000000 }, End := { sec := 1700003600, nsec := 0 } }

/-- A cache key whose derived key string differs from `aliasKeyA`'s. -/
def otherKey : CacheKey :=
  { FunctionName := "other-fn", Qualifier := "1",
    Start := { sec := 0, nsec := 0 }, End := { sec := 60, nsec := 0 } }

/-- The error-categorization rows of scenario D of the specification. -/
def scenarioDRows : List Row :=
  [[("error_category", "Timeout"), ("error_count", "5")],
   [("error_category", ""), ("error_count", "3")]]

/-- A row with a blank category and an unparsable count. -/
def badCountRow : Row := [("error_category", ""), ("error_count", "x")]

/-- A log backend whose job is `Running` on the first poll and `Failed` on
every later one. -/
def backendFailsAfterRunning : LogsBackend :=
  { startResp := .ok (some "query-id"),
    getResults := fun i => if i = 0 then .ok (.Running, []) else .ok (.Failed, []) }

/-! ## Helper lemmas -/

/-- `parseFloat` rejects the empty string. -/
theorem parseFloat_empty_eq_none : parseFloat "" = none := by decide

/-- C1: For every non-empty numeric sample given to `CalcSummaryStats`, the
result is a fully populated record (`Min`, `Max`, `Mean`, `Median` are
plain fields) in which `P95` is present iff the sample size is at least 20,
`P99` iff at least 100, and `ConfInt95` iff at least 30. -/
theorem calcSummaryStats_presence_gates (vals : List ℚ) (h : vals ≠ []) :
    ∃ s, CalcSummaryStats vals = Except.ok s
      ∧ (s.P95.isSome ↔ 20 ≤ vals.length)
      ∧ (s.P99.isSome ↔ 100 ≤ vals.length)
      ∧ (s.ConfInt95.isSome ↔ 30 ≤ vals.length) := by
  have hlen : ¬ vals.length = 0 := by simpa using h
  unfold CalcSummaryStats
  rw [if_neg hlen]
  refine ⟨_, rfl, ?_, ?_, ?_⟩
  · by_cases h20 : 20 ≤ vals.length <;> simp [h20]
  · by_cases h100 : 100 ≤ vals.length <;> simp [h100]
  · by_cases h30 : 30 ≤ vals.length <;> simp [h30]

/-- Witness for C1 at the boundary sizes 19, 20, 29, 30, 99 and 100. -/
theorem calcSummaryStats_presence_gates_witness :
    (∃ s, CalcSummaryStats (sampleOfSize 19) = Except.ok s
      ∧ (s.P95.isSome ↔ 20 ≤ (sampleOfSize 19).length)
      ∧ (s.P99.isSome ↔ 100 ≤ (sampleOfSize 19).length)
      ∧ (s.ConfInt95.isSome ↔ 30 ≤ (sampleOfSize 19).length))
    ∧ (∃ s, CalcSummaryStats (sampleOfSize 20) = Except.ok s
      ∧ (s.P95.isSome ↔ 20 ≤ (sampleOfSize 20).length)
      ∧ (s.P99.isSome ↔ 100 ≤ (sampleOfSize 20).length)
      ∧ (s.ConfInt95.isSome ↔ 30 ≤ (sampleOfSize 20).length))
    ∧ (∃ s, CalcSummaryStats (sampleOfSize 29) = Except.ok s
      ∧ (s.P95.isSome ↔ 20 ≤ (sampleOfSize 29).length)
      ∧ (s.P99.isSome ↔ 100 ≤ (sampleOfSize 29).length)
      ∧ (s.ConfInt95.isSome ↔ 30 ≤ (sampleOfSize 29).length))
    ∧ (∃ s, CalcSummaryStats (sampleOfSize 30) = Except.ok s
      ∧ (s.P95.isSome ↔ 20 ≤ (sampleOfSize 30).length)
      ∧ (s.P99.isSome ↔ 100 ≤ (sampleOfSize 30).length)
      ∧ (s.ConfInt95.isSome ↔ 30 ≤ (sampleOfSize 30).length))
    ∧ (∃ s, CalcSummaryStats (sampleOfSize 99) = Except.ok s
      ∧ (s.P95.isSome ↔ 20 ≤ (sampleOfSize 99).length)
      ∧ (s.P99.isSome ↔ 100 ≤ (sampleOfSize 99).length)
      ∧ (s.ConfInt95.isSome ↔ 30 ≤ (sampleOfSize 99).length))
    ∧ (∃ s, CalcSummaryStats (sampleOfSize 100) = Except.ok s
      ∧ (s.P95.isSome ↔ 20 ≤ (sampleOfSize 100).length)
      ∧ (s.P99.isSome ↔ 100 ≤ (sampleOfSize 100).length)
      ∧ (s.ConfInt95.isSome ↔ 30 ≤ (sampleOfSize 100).length)) :=
  ⟨calcSummaryStats_presence_gates _ (by simp [sampleOfSize]),
   calcSummaryStats_presence_gates _ (by simp [sampleOfSize]),
   calcSummaryStats_presence_gates _ (by simp [sampleOfSize]),
   calcSummaryStats_presence_gates _ (by simp [sampleOfSize]),
   calcSummaryStats_presence_gates _ (by simp [sampleOfSize]),
   calcSummaryStats_presence_gates _ (by simp [sampleOfSize])⟩

/-- C10: The derived cache key string is a function of exactly the function
name, the qualifier, and the start and end instants truncated to whole Unix
seconds; two function queries agreeing on those (even with different
regions or different sub-second parts) share the key string and therefore
address the same cache entry in `Has`, `Get` and `Set`. -/
theorem cacheKey_second_granularity (q1 q2 : FunctionQuery)
    (h1 : q1.FunctionName = q2.FunctionName) (h2 : q1.Qualifier = q2.Qualifier)
    (h3 : q1.StartTime.Unix = q2.StartTime.Unix) (h4 : q1.EndTime.Unix = q2.EndTime.Unix) :
    (cacheKeyOfQuery q1).String = (cacheKeyOfQuery q2).String
    ∧ (∀ c, Cache.Has c (cacheKeyOfQuery q1) = Cache.Has c (cacheKeyOfQuery q2))
    ∧ (∀ c, Cache.Get c (cacheKeyOfQuery q1) = Cache.Get c (cacheKeyOfQuery q2))
    ∧ (∀ c v, Cache.Set c (cacheKeyOfQuery q1) v = Cache.Set c (cacheKeyOfQuery q2) v) := by
  have hs : (cacheKeyOfQuery q1).String = (cacheKeyOfQuery q2).String := by
    simp [cacheKeyOfQuery, CacheKey.String, h1, h2, h3, h4]
  exact ⟨hs,
    fun c => by simp [Cache.Has, hs],
    fun c => by simp [Cache.Get, hs],
    fun c v => by simp [Cache.Set, hs]⟩

/-- Witness for C10: two queries differing in region and in sub-second
offsets, equal at second granularity, get the same key string and the same
cache views. -/
theorem cacheKey_second_granularity_witness :
    (cacheKeyOfQuery qDemo).String = (cacheKeyOfQuery qDemoSubSecond).String
    ∧ ∀ c, Cache.Has c (cacheKeyOfQuery qDemo) = Cache.Has c (cacheKeyOfQuery qDemoSubSecond) := by
  have h := cacheKey_second_granularity qDemo qDemoSubSecond rfl rfl rfl rfl
  exact ⟨h.1, h.2.1⟩

/-- Applying an operation whose key string differs from `k`'s does not
change what `Has` sees for `k`. -/
theorem cache_has_runOp_untouched (c : CacheStore) (op : CacheOp) (k : CacheKey)
    (h : (CacheOp.key op).String ≠ k.String) :
    Cache.Has (runOp c op) k = Cache.Has c k := by
  cases op with
  | set k2 v =>
    have hk : k2.String ≠ k.String := h
    have hb : (k.String == k2.String) = false :=
      beq_eq_false_iff_ne.mpr (fun he => hk he.symm)
    simp only [runOp, Cache.Set, Cache.Has, List.lookup, hb]

/-- A trace of operations none of which addresses `k`'s key string leaves
`Has` for `k` unchanged. -/
theorem cache_has_foldl_untouched (ops : List CacheOp) (k : CacheKey)
    (h : ∀ op ∈ ops, (CacheOp.key op).String ≠ k.String) :
    ∀ c : CacheStore, Cache.Has (ops.foldl runOp c) k = Cache.Has c k := by
  induction ops with
  | nil => intro c; rfl
  | cons op rest ih =>
    intro c
    rw [List.foldl_cons, ih (fun o ho => h o (List.mem_cons_of_mem op ho)),
      cache_has_runOp_untouched c op k (h op (List.mem_cons_self op rest))]

/-- `Has` is monotone: no operation removes a key. -/
theorem cache_has_runOp_monotone (c : CacheStore) (op : CacheOp) (k : CacheKey)
    (h : Cache.Has c k = true) : Cache.Has (runOp c op) k = true := by
  cases op with
  | set k2 v =>
    simp only [runOp, Cache.Set, Cache.Has, List.lookup]
    cases hb : k.String == k2.String
    · exact h
    · rfl

/-- `Has` stays true across any further trace. -/
theorem cache_has_foldl_monotone (ops : List CacheOp) (k : CacheKey) :
    ∀ c : CacheStore, Cache.Has c k = true → Cache.Has (ops.foldl runOp c) k = true := by
  induction ops with
  | nil => intro c h; exact h
  | cons op rest ih =>
    intro c h
    rw [List.foldl_cons]
    exact ih _ (cache_has_runOp_monotone c op k h)

/-- After a trace containing `Set(k, v)`, `Has(k)` is true. -/
theorem cache_has_of_set_mem (ops : List CacheOp) (k : CacheKey) (v : Int)
    (h : CacheOp.set k v ∈ ops) :
    ∀ c : CacheStore, Cache.Has (ops.foldl runOp c) k = true := by
  induction ops with
  | nil => cases h
  | cons op rest ih =>
    intro c
    rw [List.foldl_cons]
    rcases List.mem_cons.mp h with heq | hmem
    · subst heq
      exact cache_has_foldl_monotone rest k _
        (by simp [runOp, Cache.Set, Cache.Has, List.lookup])
    · exact ih hmem _

/-- C5 as stated is false on the code: the cache is keyed by the derived
key string, which truncates instants to whole Unix seconds, so `Has(k)` can
become true through a `Set` of a *different* key value (`aliasKeyB`, whose
start differs from `aliasKeyA`'s by half a second) even though `Set(k, _)`
was never executed. -/
theorem cacheHas_before_set_claim_false :
    ¬ (∀ (ops : List CacheOp) (k : CacheKey),
        (∀ v, CacheOp.set k v ∉ ops) → Cache.Has (runOps ops) k = false) := by
  intro hclaim
  have hne : aliasKeyA ≠ aliasKeyB := by decide
  have h := hclaim [CacheOp.set aliasKeyB 1] aliasKeyA (fun v hv => by
    have : CacheOp.set aliasKeyA v = CacheOp.set aliasKeyB 1 := by
      simpa using hv
    exact hne (congrArg CacheOp.key this))
  have htrue : Cache.Has (runOps [CacheOp.set aliasKeyB 1]) aliasKeyA = true := by decide
  rw [htrue] at h
  cases h

/-- C5 (amended): `Set(k, v)` followed by `Get(k)` returns `(v, true)`;
`Has(k)` is false on a fresh cache instance and, more generally, before any
`Set` of a key with the same derived key string as `k` (in particular
before any `Set(k, _)`); and `Has(k)` is true after any trace containing a
`Set(k, _)`. -/
theorem cache_law_string_keyed (c : CacheStore) (k : CacheKey) (v : Int)
    (ops : List CacheOp)
    (hno : ∀ op ∈ ops, (CacheOp.key op).String ≠ k.String) :
    Cache.Get (Cache.Set c k v) k = (v, true)
    ∧ Cache.Has NewCache k = false
    ∧ Cache.Has (runOps ops) k = false
    ∧ ∀ (ops2 : List CacheOp) (v2 : Int), CacheOp.set k v2 ∈ ops2 →
        Cache.Has (runOps ops2) k = true := by
  refine ⟨?_, rfl, ?_, ?_⟩
  · simp [Cache.Get, Cache.Set, List.lookup]
  · rw [runOps, cache_has_foldl_untouched ops k hno NewCache]; rfl
  · intro ops2 v2 hmem
    exact cache_has_of_set_mem ops2 k v2 hmem NewCache

/-- Witness for the amended C5 at concrete keys: the set/get law, `Has`
false on a fresh instance and after a trace touching only a different key
string, and `Has` true after a `Set` of the key itself. -/
theorem cache_law_string_keyed_witness :
    Cache.Get (Cache.Set [("x", 3)] aliasKeyA 7) aliasKeyA = (7, true)
    ∧ Cache.Has NewCache aliasKeyA = false
    ∧ Cache.Has (runOps [CacheOp.set otherKey 1]) aliasKeyA = false
    ∧ Cache.Has (runOps [CacheOp.set aliasKeyA 7]) aliasKeyA = true := by
  obtain ⟨h1, h2, h3, h4⟩ :=
    cache_law_string_keyed [("x", 3)] aliasKeyA 7 [CacheOp.set otherKey 1] (by decide)
  exact ⟨h1, h2, h3, h4 [CacheOp.set aliasKeyA 7] 7 (by simp)⟩

/-- C2: Whenever the resolved invocation-count denominator is zero, the
orchestrator fails with the typed `NoInvocationsError`, which is distinct
from every other (`goErr`) error, whatever any numerator oracle would
answer.  For the cache-consulting orchestrators the only hypothesis is on
`resolveInvocationsSum`, which covers both the cache-hit branch (where the
metrics backend is never consulted and may answer anything) and the
miss-then-fetch branch; the fetch-only orchestrators resolve the
denominator directly from the metric sum. -/
theorem orchestrators_noInvocations_guard
    (env : Env) (c : CacheStore) (q : FunctionQuery) :
    (∀ c1, resolveInvocationsSum env c q = (.ok 0, c1) →
      GetErrorRate env c q = (.fail (.noInvocations q.FunctionName), c1)
      ∧ GetTimeoutRate env c q = (.fail (.noInvocations q.FunctionName), c1))
    ∧ (∀ res, env.fetchMetric "Invocations" "Sum" = .ok res →
        SumMetricValues res = .ok 0 →
      GetThrottleRate env q = .fail (.noInvocations q.FunctionName)
      ∧ GetWasteRatio env q = .fail (.noInvocations q.FunctionName)
      ∧ GetErrorTypes env q = .fail (.noInvocations q.FunctionName)
      ∧ GetColdStartRate env q = .fail (.noInvocations q.FunctionName))
    ∧ ∀ msg, SdkError.noInvocations q.FunctionName ≠ SdkError.goErr msg := by
  refine ⟨fun c1 hresolved => ⟨?_, ?_⟩, fun res hfetch hsum => ⟨?_, ?_, ?_, ?_⟩, ?_⟩
  · simp [GetErrorRate, hresolved]
  · simp [GetTimeoutRate, hresolved]
  · simp [GetThrottleRate, hfetch, hsum]
  · simp [GetWasteRatio, hfetch, hsum]
  · simp [GetErrorTypes, hfetch, hsum]
  · simp [GetColdStartRate, hfetch, hsum]
  · intro msg hEq; cases hEq

/-- Witness for C2 on both denominator paths.  Cache-hit path: `qDemo`'s
key is cached with count `0` while the metrics backend would answer `5`,
and the cache-consulting orchestrators still fail with
`NoInvocationsError` (the backend is not consulted on a hit).  Fresh-fetch
path: an empty cache with a zero metric sum fails the same way. -/
theorem orchestrators_noInvocations_guard_witness :
    GetErrorRate envFiveNoLogs cacheWithZero qDemo
      = (.fail (.noInvocations "my-fn"), cacheWithZero)
    ∧ GetTimeoutRate envFiveNoLogs cacheWithZero qDemo
      = (.fail (.noInvocations "my-fn"), cacheWithZero)
    ∧ GetErrorRate envAllZero NewCache qDemo
      = (.fail (.noInvocations "my-fn"), Cache.Set NewCache (cacheKeyOfQuery qDemo) 0)
    ∧ GetThrottleRate envAllZero qDemo = .fail (.noInvocations "my-fn")
    ∧ GetColdStartRate envAllZero qDemo = .fail (.noInvocations "my-fn") := by
  have hreshit : resolveInvocationsSum envFiveNoLogs cacheWithZero qDemo
      = (.ok 0, cacheWithZero) := by
    simp [resolveInvocationsSum, cacheWithZero, Cache.Has, Cache.Get, Cache.Set,
      NewCache, List.lookup]
  have hresmiss : resolveInvocationsSum envAllZero NewCache qDemo
      = (.ok 0, Cache.Set NewCache (cacheKeyOfQuery qDemo) 0) := by
    norm_num [resolveInvocationsSum, envAllZero, Cache.Has, NewCache, SumMetricValues,
      float64ToInt]
  have hsum0 : SumMetricValues [{ Values := [0] }] = .ok 0 := by
    norm_num [SumMetricValues]
  obtain ⟨hhit, -, -⟩ :=
    orchestrators_noInvocations_guard envFiveNoLogs cacheWithZero qDemo
  obtain ⟨hmiss, hfetchonly, -⟩ :=
    orchestrators_noInvocations_guard envAllZero NewCache qDemo
  obtain ⟨h1, h2⟩ := hhit cacheWithZero hreshit
  obtain ⟨h3, -⟩ := hmiss (Cache.Set NewCache (cacheKeyOfQuery qDemo) 0) hresmiss
  obtain ⟨h4, -, -, h6⟩ := hfetchonly [{ Values := [0] }] rfl hsum0
  exact ⟨h1, h2, h3, h4, h6⟩

/-- C3 fails on the code (code bug): `GetTimeoutRate` guards the
metrics-derived invocation sum, but its final division divides by the
log-derived `invocationsCount`, which stays `0` when the unique-requests
query returns no rows.  With invocations = 5 from the metrics backend and
empty log query results the guard passes and the returned rate is the
non-finite `0/0` (`none`), so the division-by-zero case is reachable. -/
theorem getTimeoutRate_divides_by_zero_log_count :
    (resolveInvocationsSum envFiveNoLogs NewCache qDemo).1 = .ok 5
    ∧ (GetTimeoutRate envFiveNoLogs NewCache qDemo).1
      = .ok { TimeoutRate := none, FunctionName := "my-fn", Qualifier := "7",
              StartTime := { sec := 1700000000, nsec := 0 },
              EndTime := { sec := 1700003600, nsec := 0 } } := by
  have hres : resolveInvocationsSum envFiveNoLogs NewCache qDemo
      = (.ok 5, Cache.Set NewCache (cacheKeyOfQuery qDemo) 5) := by
    norm_num [resolveInvocationsSum, envFiveNoLogs, Cache.Has, NewCache, SumMetricValues,
      float64ToInt]
  refine ⟨by rw [hres], ?_⟩
  rw [GetTimeoutRate, hres]
  norm_num [envFiveNoLogs, readAggregateCount, floatDiv, qDemo]

/-- C9 fails on the code (code bug): when the cold-start aggregate query
returns an empty row sequence, `GetColdStartRate` reads `results[0]`
without a length check and panics instead of returning a result or an
error. -/
theorem getColdStartRate_empty_rows_panic :
    GetColdStartRate envFiveNoLogs qDemo
      = .panicked "runtime error: index out of range [0] with length 0" := by
  norm_num [GetColdStartRate, envFiveNoLogs, SumMetricValues]

/-- C4: When the billed-duration query yields a row whose two totals parse
to actual total `a` and billed total `b`: if `a = 0` the call fails with
the distinct zero-duration error (not `NoInvocationsError`), and otherwise
it returns the ratio `(b − a) / b`. -/
theorem getWasteRatio_zero_duration_guard
    (env : Env) (q : FunctionQuery)
    (res : List MetricDataResult) (s : ℚ)
    (hfetch : env.fetchMetric "Invocations" "Sum" = .ok res)
    (hsum : SumMetricValues res = .ok s) (hs : s ≠ 0)
    (row : Row) (rest : List Row)
    (hrun : env.runQuery (sprintf1 LambdaBilledDurationQueryWithVersion (escapeQualifier q.Qualifier))
      = .ok (row :: rest))
    (a b : ℚ)
    (ha : parseFloat (Row.get row "totalDuration") = some a)
    (hb : parseFloat (Row.get row "totalBilledDuration") = some b) :
    (a = 0 →
      GetWasteRatio env q = .fail (.goErr "total duration is zero, cannot calculate waste ratio")
      ∧ ∀ fn, SdkError.goErr "total duration is zero, cannot calculate waste ratio"
          ≠ SdkError.noInvocations fn)
    ∧ (a ≠ 0 →
      GetWasteRatio env q
        = .ok { WasteRatio := floatDiv (b - a) b, FunctionName := q.FunctionName,
                Qualifier := q.Qualifier, StartTime := q.StartTime, EndTime := q.EndTime }) := by
  have hva : Row.get row "totalDuration" ≠ "" := by
    intro he; rw [he, parseFloat_empty_eq_none] at ha; cases ha
  have hvb : Row.get row "totalBilledDuration" ≠ "" := by
    intro he; rw [he, parseFloat_empty_eq_none] at hb; cases hb
  constructor
  · intro ha0
    subst ha0
    refine ⟨?_, fun fn hEq => by cases hEq⟩
    simp [GetWasteRatio, hfetch, hsum, hrun, hva, hvb, ha, hb, hs]
  · intro ha0
    simp [GetWasteRatio, hfetch, hsum, hrun, hva, hvb, ha, hb, hs, ha0]

/-- Witness for C4 at scenario E: billed total 110 and actual total 100
give waste ratio `10/110 = 1/11 ≈ 0.0909`. -/
theorem getWasteRatio_zero_duration_guard_witness :
    GetWasteRatio envWasteDemo qDemo
      = .ok { WasteRatio := floatDiv (110 - 100) 110, FunctionName := "my-fn",
              Qualifier := "7", StartTime := { sec := 1700000000, nsec := 0 },
              EndTime := { sec := 1700003600, nsec := 0 } }
    ∧ floatDiv ((110 : ℚ) - 100) 110 = some (1 / 11) := by
  have hsum42 : SumMetricValues [{ Values := [42] }] = .ok 42 := by
    norm_num [SumMetricValues]
  have hd1 : splitFirstDot ("100".data) = ("100".data, none) := by decide
  have hd2 : parseNatDigits ("100".data) = some 100 := by decide
  have hd3 : splitFirstDot ("110".data) = ("110".data, none) := by decide
  have hd4 : parseNatDigits ("110".data) = some 110 := by decide
  have hrowa : Row.get [("totalDuration", "100"), ("totalBilledDuration", "110")] "totalDuration"
      = "100" := by decide
  have hrowb : Row.get [("totalDuration", "100"), ("totalBilledDuration", "110")] "totalBilledDuration"
      = "110" := by decide
  have ha : parseFloat (Row.get [("totalDuration", "100"), ("totalBilledDuration", "110")] "totalDuration")
      = some 100 := by
    rw [hrowa]; simp [parseFloat, hd1, hd2]
  have hb : parseFloat (Row.get [("totalDuration", "100"), ("totalBilledDuration", "110")] "totalBilledDuration")
      = some 110 := by
    rw [hrowb]; simp [parseFloat, hd3, hd4]
  have h := getWasteRatio_zero_duration_guard envWasteDemo qDemo
    [{ Values := [42] }] 42 rfl hsum42 (by norm_num)
    [("totalDuration", "100"), ("totalBilledDuration", "110")] [] rfl 100 110 ha hb
  exact ⟨h.2 (by norm_num), by norm_num [floatDiv]⟩

/-- C6: When the cold-start aggregate row has a blank `totalInvocations` or
a blank `coldStartLines` field, `GetColdStartRate` returns rate `0` rather
than an error. -/
theorem getColdStartRate_blank_fields_zero
    (env : Env) (q : FunctionQuery)
    (res : List MetricDataResult) (s : ℚ)
    (hfetch : env.fetchMetric "Invocations" "Sum" = .ok res)
    (hsum : SumMetricValues res = .ok s) (hs : s ≠ 0)
    (row : Row) (rest : List Row)
    (hrun : env.runQuery (sprintf1 LambdaColdStartRateWithVersion (escapeQualifier q.Qualifier))
      = .ok (row :: rest))
    (hblank : Row.get row "totalInvocations" = "" ∨ Row.get row "coldStartLines" = "") :
    GetColdStartRate env q
      = .ok { ColdStartRate := some 0, FunctionName := q.FunctionName,
              Qualifier := q.Qualifier, StartTime := q.StartTime, EndTime := q.EndTime } := by
  have hcond : ¬ (Row.get row "totalInvocations" ≠ "" ∧ Row.get row "coldStartLines" ≠ "") := by
    rcases hblank with h | h
    · exact fun hc => hc.1 h
    · exact fun hc => hc.2 h
  simp only [GetColdStartRate, hfetch, hsum, hrun]
  rw [if_neg hs, if_neg hcond]

/-- Witness for C6: a blank `totalInvocations` field yields rate 0. -/
theorem getColdStartRate_blank_fields_zero_witness :
    GetColdStartRate envColdBlank qDemo
      = .ok { ColdStartRate := some 0, FunctionName := "my-fn", Qualifier := "7",
              StartTime := { sec := 1700000000, nsec := 0 },
              EndTime := { sec := 1700003600, nsec := 0 } } := by
  have hsum100 : SumMetricValues [{ Values := [100] }] = .ok 100 := by
    norm_num [SumMetricValues]
  exact getColdStartRate_blank_fields_zero envColdBlank qDemo
    [{ Values := [100] }] 100 rfl hsum100 (by norm_num)
    [("totalInvocations", ""), ("coldStartLines", "10")] [] rfl (Or.inl (by decide))

/-- C7 as stated is false on the code: a row whose category is blank is
*not* always reported under `"UnknownError"` — when its count also fails to
parse, the row is skipped entirely, so no `"UnknownError"` entry appears. -/
theorem errorTypes_blank_category_claim_false :
    ¬ (∀ (rows : List Row), ∀ row ∈ rows,
        (Row.get? row "error_category" = none ∨ Row.get? row "error_category" = some "") →
        ∃ e ∈ errorTypesOfRows rows, e.ErrorCategory = "UnknownError") := by
  intro hclaim
  obtain ⟨e, he, _⟩ := hclaim [badCountRow] badCountRow (by simp) (Or.inr (by decide))
  have hnil : errorTypesOfRows [badCountRow] = [] := by decide
  rw [hnil] at he
  exact absurd he (List.not_mem_nil e)

/-- C7 (amended): the returned breakdown is exactly the per-row filter-map
`rowEntry` — a row is kept iff its count field is present and parses as an
integer, in which case it appears with its own parsed count and with its
category normalized to `"UnknownError"` when blank or missing, and a bad
row never affects the others; in particular every blank-or-missing-category
row whose count parses is reported under `"UnknownError"`. -/
theorem errorTypes_rows_characterization (rows : List Row) :
    errorTypesOfRows rows = rows.filterMap rowEntry
    ∧ ∀ row ∈ rows,
        (Row.get? row "error_category" = none ∨ Row.get? row "error_category" = some "") →
        ∀ countStr count, Row.get? row "error_count" = some countStr →
          parseInt countStr = some count →
          ErrorType.mk "UnknownError" count ∈ errorTypesOfRows rows := by
  have hchar : ∀ rs : List Row, errorTypesOfRows rs = rs.filterMap rowEntry := by
    intro rs
    induction rs with
    | nil => rfl
    | cons row rest ih =>
      cases hc : Row.get? row "error_count" with
      | none => simp [errorTypesOfRows, rowEntry, hc, List.filterMap_cons, ih]
      | some cs =>
        cases hp : parseInt cs with
        | none => simp [errorTypesOfRows, rowEntry, hc, hp, List.filterMap_cons, ih]
        | some n => simp [errorTypesOfRows, rowEntry, hc, hp, List.filterMap_cons, ih]
  refine ⟨hchar rows, ?_⟩
  intro row hmem hblank countStr count hcount hparse
  rw [hchar rows]
  refine List.mem_filterMap.mpr ⟨row, hmem, ?_⟩
  rcases hblank with h | h <;> simp [rowEntry, hcount, hparse, h]

/-- Witness for the amended C7 at scenario D plus a bad row: `Timeout/5`
and `UnknownError/3` are reported and the row with unparsable count is
skipped. -/
theorem errorTypes_rows_characterization_witness :
    errorTypesOfRows (scenarioDRows ++ [badCountRow])
      = (scenarioDRows ++ [badCountRow]).filterMap rowEntry
    ∧ ErrorType.mk "UnknownError" 3 ∈ errorTypesOfRows (scenarioDRows ++ [badCountRow])
    ∧ errorTypesOfRows (scenarioDRows ++ [badCountRow])
      = [{ ErrorCategory := "Timeout", ErrorCount := 5 },
         { ErrorCategory := "UnknownError", ErrorCount := 3 }] := by
  refine ⟨(errorTypes_rows_characterization (scenarioDRows ++ [badCountRow])).1, ?_, by decide⟩
  exact (errorTypes_rows_characterization (scenarioDRows ++ [badCountRow])).2
    [("error_category", ""), ("error_count", "3")] (by decide)
    (Or.inr (by decide)) "3" 3 (by decide) (by decide)

/-- A terminal `Failed`/`Cancelled` response ends the iteration with the
failure naming the status. -/
theorem pollOnce_terminal (backend : LogsBackend) (i : Nat) (st : QueryStatus)
    (raws : List RawRow)
    (hst : st = .Failed ∨ st = .Cancelled)
    (h : backend.getResults i = .ok (st, raws)) :
    pollOnce backend i
      = some (.fail (.goErr ("query failed with status: " ++ st.render))) := by
  unfold pollOnce
  rw [h]
  rcases hst with rfl | rfl <;> simp

/-- A non-terminal response keeps the loop going. -/
theorem pollOnce_nonterminal (backend : LogsBackend) (i : Nat) (st : QueryStatus)
    (raws : List RawRow)
    (h : backend.getResults i = .ok (st, raws))
    (h1 : st ≠ .Complete) (h2 : st ≠ .Failed) (h3 : st ≠ .Cancelled) :
    pollOnce backend i = none := by
  simp [pollOnce, h, h1, h2, h3]

/-- If the poll loop, started at index `i` with `fuel` remaining polls,
sees only non-terminal statuses for `k` polls and then the terminal status
`st ∈ {Failed, Cancelled}`, it fails with the error naming `st`. -/
theorem pollLoop_terminal_reached (backend : LogsBackend) (st : QueryStatus)
    (hst : st = .Failed ∨ st = .Cancelled) :
    ∀ (k i fuel : Nat), k ≤ fuel →
    (∀ j, j < k → ∃ stj rawsj, backend.getResults (i + j) = .ok (stj, rawsj)
        ∧ stj ≠ .Complete ∧ stj ≠ .Failed ∧ stj ≠ .Cancelled) →
    (∃ raws, backend.getResults (i + k) = .ok (st, raws)) →
    pollLoop backend i fuel
      = .fail (.goErr ("query failed with status: " ++ st.render)) := by
  intro k
  induction k with
  | zero =>
    intro i fuel hk hprev hterm
    obtain ⟨raws, hterm⟩ := hterm
    rw [Nat.add_zero] at hterm
    have honce := pollOnce_terminal backend i st raws hst hterm
    cases fuel <;> simp [pollLoop, honce]
  | succ k ih =>
    intro i fuel hk hprev hterm
    obtain ⟨st0, raws0, h0, hn1, hn2, hn3⟩ := hprev 0 (Nat.succ_pos k)
    rw [Nat.add_zero] at h0
    have honce := pollOnce_nonterminal backend i st0 raws0 h0 hn1 hn2 hn3
    cases fuel with
    | zero => exact absurd hk (by omega)
    | succ fuel' =>
      rw [pollLoop, honce]
      refine ih (i + 1) fuel' (by omega) ?_ ?_
      · intro j hj
        have := hprev (j + 1) (by omega)
        rwa [show i + (j + 1) = i + 1 + j by omega] at this
      · obtain ⟨raws, hterm⟩ := hterm
        exact ⟨raws, by rwa [show i + (k + 1) = i + 1 + k by omega] at hterm⟩

/-- C8: When the submitted job polls through non-terminal statuses and then
reaches `Failed` or `Cancelled` within the deadline, `RunQuery` returns no
rows and fails with the descriptive error naming that terminal status. -/
theorem runQuery_terminal_status_error
    (backend : LogsBackend) (qid : String) (k : Nat) (st : QueryStatus) (raws : List RawRow)
    (hstart : backend.startResp = .ok (some qid))
    (hk : k ≤ maxExtraPolls)
    (hst : st = .Failed ∨ st = .Cancelled)
    (hprev : ∀ j, j < k → ∃ stj rawsj, backend.getResults j = .ok (stj, rawsj)
        ∧ stj ≠ .Complete ∧ stj ≠ .Failed ∧ stj ≠ .Cancelled)
    (hterm : backend.getResults k = .ok (st, raws)) :
    RunQuery backend = .fail (.goErr ("query failed with status: " ++ st.render))
    ∧ ∀ rows, RunQuery backend ≠ .ok rows := by
  have hmain : RunQuery backend
      = .fail (.goErr ("query failed with status: " ++ st.render)) := by
    unfold RunQuery
    rw [hstart]
    exact pollLoop_terminal_reached backend st hst k 0 maxExtraPolls hk
      (fun j hj => by simpa using hprev j hj) ⟨raws, by simpa using hterm⟩
  exact ⟨hmain, fun rows hEq => by rw [hmain] at hEq; cases hEq⟩

/-- Witness for C8: a job that is `Running` on the first poll and `Failed`
on the second makes `RunQuery` fail with the error naming `Failed`. -/
theorem runQuery_terminal_status_error_witness :
    RunQuery backendFailsAfterRunning = .fail (.goErr "query failed with status: Failed")
    ∧ RunQuery backendFailsAfterRunning ≠ .ok [] := by
  have h := runQuery_terminal_status_error backendFailsAfterRunning "query-id" 1 .Failed []
    rfl (by norm_num [maxExtraPolls]) (Or.inl rfl)
    (fun j hj => by
      have hj0 : j = 0 := by omega
      subst hj0
      exact ⟨.Running, [], rfl, by decide, by decide, by decide⟩)
    rfl
  exact ⟨h.1, h.2 []⟩

end LambdaAnalyzer
